import Mathlib

/-!
Verification of the openvpn-status-parser repository.

The Go sources are shallowly embedded: Go strings become `List Char`
(`Str`), Go `int64` becomes `Int` (with the explicit int64 range check in
`parseInt64`), files become `Option (List Str)` (`none` = the file could
not be opened), and the imperative per-line mutation of the `Status`
struct becomes explicit state passing.  Definition names follow the Go
source (`parser/parser.go`, `parser/types.go`, `main.go`,
`formatter/openmetrics.go`).
-/

/-- A Go string, as its list of characters. -/
abbrev Str := List Char

/-- Embed a Lean string literal as a `Str`. -/
def str (s : String) : Str := s.data

/-- Go `unicode.IsSpace` restricted to the Latin-1 range (the only
characters `strings.TrimSpace` can strip from the inputs the claims are
about): space, tab, newline, vertical tab, form feed, carriage return,
NEL and NBSP. -/
def goIsSpace (c : Char) : Bool :=
  c = ' ' || c = '\t' || c = '\n' || c.toNat = 0x0B || c.toNat = 0x0C ||
  c = '\r' || c.toNat = 0x85 || c.toNat = 0xA0

/-- Go `strings.TrimSpace`: drop leading and trailing white space. -/
def trimSpace (s : Str) : Str :=
  ((s.dropWhile goIsSpace).reverse.dropWhile goIsSpace).reverse

/-- Go `strings.Split s sep` for a one-character separator `d`.
Always returns a non-empty list; `Split "" d = [""]`. -/
def splitOn (d : Char) : Str → List Str
  | [] => [[]]
  | c :: cs =>
    let r := splitOn d cs
    if c = d then [] :: r
    else
      match r with
      | [] => [[c]]
      | t :: ts => (c :: t) :: ts

/-- Go `strings.Join fs (String.singleton d)`. -/
def joinOn (d : Char) : List Str → Str
  | [] => []
  | [f] => f
  | f :: fs => f ++ d :: joinOn d fs

/-- Error cause of a failed `strconv.ParseInt` (`*strconv.NumError`):
either a syntax error or an out-of-range (int64) error. -/
inductive NumErr where
  | syntaxError
  | rangeError
deriving DecidableEq

/-- Go `strconv.ParseInt s 10 64`: optional sign, then one or more
decimal digits, value within the int64 range.  `.error` corresponds to a
non-nil Go error (in which case the caller keeps the zero value). -/
def parseInt64 (s : Str) : Except NumErr Int :=
  let (neg, ds) :=
    match s with
    | '+' :: r => (false, r)
    | '-' :: r => (true, r)
    | r => (false, r)
  if ds.isEmpty then .error .syntaxError
  else if ds.all Char.isDigit then
    let n : Nat := ds.foldl (fun a c => a * 10 + (c.toNat - 48)) 0
    let v : Int := if neg then -(n : Int) else (n : Int)
    if -(2 ^ 63) ≤ v ∧ v < 2 ^ 63 then .ok v else .error .rangeError
  else .error .syntaxError

/-- Go `parser.StatusVersion` is `type StatusVersion int`. -/
abbrev StatusVersion := Int

/-- Go `parser.Version1`. -/
def Version1 : StatusVersion := 1
/-- Go `parser.Version2`. -/
def Version2 : StatusVersion := 2
/-- Go `parser.Version3`. -/
def Version3 : StatusVersion := 3

/-- Go `parser.ServerConfig` (server metadata attached post-parse). -/
structure ServerConfig where
  id : Str
  local_ : Str
  port : Str
  proto : Str
  dev : Str
deriving DecidableEq

/-- Go `parser.Client`: one connected OpenVPN client.  Go zero values
(empty string / 0) are the defaults filled by `Client{}`. -/
structure Client where
  commonName : Str := []
  realAddress : Str := []
  virtualAddress : Str := []
  virtualIPv6Address : Str := []
  bytesReceived : Int := 0
  bytesSent : Int := 0
  connectedSince : Str := []
  connectedSinceTime : Int := 0
  username : Str := []
  clientID : Int := 0
  peerID : Int := 0
  dataCipher : Str := []
deriving DecidableEq

/-- Go `parser.Route`: one routing-table entry. -/
structure Route where
  virtualAddress : Str := []
  commonName : Str := []
  realAddress : Str := []
  lastRef : Str := []
  lastRefTime : Int := 0
deriving DecidableEq

/-- Go `parser.Status`: the complete parsed status file. -/
structure Status where
  server : Option ServerConfig := none
  title : Str := []
  time : List Str := []
  clientList : List Client := []
  routingTable : List Route := []
deriving DecidableEq

/-- The `&Status{...}` literal built at the start of `ParseFile`. -/
def initialStatus : Status :=
  { server := none, title := [], time := [], clientList := [], routingTable := [] }

/-- The cause field (`Err`) of a `parser.ParseError`. -/
inductive ErrCause where
  /-- Go `fmt.Errorf("expected (at least) %d fields, got %d", ...)`. -/
  | fieldCount (expected got : Nat)
  /-- the error returned by `strconv.ParseInt` on `num`. -/
  | num (e : NumErr) (num : Str)
deriving DecidableEq

/-- Go `parser.ParseError`: line number (1-indexed), field name, raw value,
underlying cause. -/
structure ParseError where
  line : Nat
  field : Str
  value : Str
  err : ErrCause
deriving DecidableEq

/-- An element of the `[]error` list returned by `ParseFile`: either the
single fatal `failed to open file` error or a recoverable `ParseError`.
(Mid-stream `bufio.Scanner` I/O failures are outside the file model: a
readable file is its list of lines.) -/
inductive GoError where
  | openError
  | parse (e : ParseError)
deriving DecidableEq

/-- The repeated Go pattern
`if fields[i] != "" { if v, err := strconv.ParseInt(fields[i], 10, 64); err != nil { errs = append(errs, ParseError{...}) } else { field = v } }`:
returns the value the record field ends up with (the zero value 0 when
the sub-field is empty or fails to parse) and the collected error, if
any. -/
def parseNumField (s : Str) (name : String) (lineNum : Nat) : Int × Option ParseError :=
  if s.isEmpty then (0, none)
  else
    match parseInt64 s with
    | .ok v => (v, none)
    | .error k => (0, some ⟨lineNum, str name, s, .num k s⟩)

/-- Go `parser.handleTitle`. -/
def handleTitle (fields : List Str) (status : Status) (lineNum : Nat) :
    Status × Option ParseError :=
  if fields.length < 2 then
    (status, some ⟨lineNum, str "TITLE", joinOn ',' fields, .fieldCount 2 fields.length⟩)
  else
    ({ status with title := fields.getD 1 [] }, none)

/-- Go `parser.handleTime`. -/
def handleTime (fields : List Str) (status : Status) (lineNum : Nat) :
    Status × Option ParseError :=
  if fields.length < 2 then
    (status, some ⟨lineNum, str "TIME", joinOn ',' fields, .fieldCount 2 fields.length⟩)
  else
    ({ status with time := fields.drop 1 }, none)

/-- Go `parser.handleClientListV1`. -/
def handleClientListV1 (fields : List Str) (status : Status) (lineNum : Nat) :
    Status × Option ParseError :=
  if fields.length < 5 then
    (status, some ⟨lineNum, str "CLIENT_LIST_V1", joinOn ',' fields,
      .fieldCount 5 fields.length⟩)
  else
    -- real address comes with port: aparts := strings.Split(fields[1], ":")
    let aparts := splitOn ':' (fields.getD 1 [])
    let p1 := parseNumField (fields.getD 2 []) "bytesReceived" lineNum
    let p2 := parseNumField (fields.getD 3 []) "bytesSent" lineNum
    let client : Client :=
      { commonName := fields.getD 0 []
        realAddress := aparts.headD []
        bytesReceived := p1.1
        bytesSent := p2.1
        connectedSince := fields.getD 4 [] }
    let errs := p1.2.toList ++ p2.2.toList
    ({ status with clientList := status.clientList ++ [client] }, errs.head?)

/-- Go `parser.handleClientListV2V3`. -/
def handleClientListV2V3 (fields : List Str) (status : Status) (lineNum : Nat) :
    Status × Option ParseError :=
  if fields.length < 12 then
    (status, some ⟨lineNum, str "CLIENT_LIST", joinOn ',' fields,
      .fieldCount 12 fields.length⟩)
  else
    -- real address comes with port: aparts := strings.Split(fields[2], ":")
    let aparts := splitOn ':' (fields.getD 2 [])
    let p1 := parseNumField (fields.getD 5 []) "bytesReceived" lineNum
    let p2 := parseNumField (fields.getD 6 []) "bytesSent" lineNum
    let p3 := parseNumField (fields.getD 8 []) "connectedSinceTime" lineNum
    let p4 := parseNumField (fields.getD 10 []) "clientId" lineNum
    let p5 := parseNumField (fields.getD 11 []) "peerId" lineNum
    let client : Client :=
      { commonName := fields.getD 1 []
        realAddress := aparts.headD []
        virtualAddress := fields.getD 3 []
        virtualIPv6Address := fields.getD 4 []
        bytesReceived := p1.1
        bytesSent := p2.1
        connectedSince := fields.getD 7 []
        connectedSinceTime := p3.1
        username := fields.getD 9 []
        clientID := p4.1
        peerID := p5.1
        -- Optional field: if len(fields) > 12 && fields[12] != ""
        dataCipher :=
          if 12 < fields.length ∧ ¬(fields.getD 12 []).isEmpty then fields.getD 12 []
          else [] }
    let errs := p1.2.toList ++ p2.2.toList ++ p3.2.toList ++ p4.2.toList ++ p5.2.toList
    ({ status with clientList := status.clientList ++ [client] }, errs.head?)

/-- Go `parser.handleRoutingTable`. -/
def handleRoutingTable (fields : List Str) (status : Status) (lineNum : Nat) :
    Status × Option ParseError :=
  if fields.length < 6 then
    (status, some ⟨lineNum, str "ROUTING_TABLE", joinOn ',' fields,
      .fieldCount 6 fields.length⟩)
  else
    -- real address comes with port: aparts := strings.Split(fields[3], ":")
    let aparts := splitOn ':' (fields.getD 3 [])
    let p1 := parseNumField (fields.getD 5 []) "lastRefTime" lineNum
    let route : Route :=
      { virtualAddress := fields.getD 1 []
        commonName := fields.getD 2 []
        realAddress := aparts.headD []
        lastRef := fields.getD 4 []
        lastRefTime := p1.1 }
    ({ status with routingTable := status.routingTable ++ [route] }, p1.2.toList.head?)

/-- Go `parser.parseLine`: split the line and dispatch on the version /
leading type tag. -/
def parseLine (line : Str) (status : Status) (lineNum : Nat)
    (version : StatusVersion) (delimiter : Char) : Status × Option ParseError :=
  let fields := splitOn delimiter line
  if fields.length = 0 then (status, none)
  else if version = Version1 then handleClientListV1 fields status lineNum
  else
    let lineType := fields.getD 0 []
    if lineType = str "TITLE" then handleTitle fields status lineNum
    else if lineType = str "TIME" then handleTime fields status lineNum
    else if lineType = str "HEADER" then (status, none)
    else if lineType = str "CLIENT_LIST" then handleClientListV2V3 fields status lineNum
    else if lineType = str "ROUTING_TABLE" then handleRoutingTable fields status lineNum
    else (status, none)

/-- The delimiter chosen at the top of `ParseFile`:
`delimiter := ","; if version == Version3 { delimiter = "\t" }`. -/
def delimiterOf (version : StatusVersion) : Char :=
  if version = Version3 then '\t' else ','

/-- The `bufio.Scanner` loop of `ParseFile`: trim each line, skip blank
lines, dispatch the rest and collect the recoverable errors in order.
`lineNum` counts every physical line (1-indexed), blank ones included. -/
def scanLines (lines : List Str) (status : Status) (lineNum : Nat)
    (version : StatusVersion) (delimiter : Char) : Status × List GoError :=
  match lines with
  | [] => (status, [])
  | l :: ls =>
    let line := trimSpace l
    if line.isEmpty then scanLines ls status (lineNum + 1) version delimiter
    else
      let r := parseLine line status lineNum version delimiter
      let rest := scanLines ls r.1 (lineNum + 1) version delimiter
      (rest.1, (r.2.map GoError.parse).toList ++ rest.2)

/-- Go `parser.ParseFile`.  The file argument is `none` when `os.Open`
fails and `some lines` (the file's physical lines) otherwise. -/
def ParseFile (file : Option (List Str)) (version : StatusVersion) :
    Option Status × List GoError :=
  match file with
  | none => (none, [GoError.openError])
  | some lines =>
    let r := scanLines lines initialStatus 1 version (delimiterOf version)
    (some r.1, r.2)

/-- Go `main.getStatusVersion`: map the configured integer to a
`StatusVersion`, defaulting to v3. -/
def getStatusVersion (ver : Int) : StatusVersion :=
  if ver = 1 then Version1
  else if ver = 2 then Version2
  else if ver = 3 then Version3
  else Version3

/-- Lowercase hexadecimal digit, as used by `strconv.Quote` escapes. -/
def hexDigit (n : Nat) : Char :=
  if n < 10 then Char.ofNat (48 + n) else Char.ofNat (87 + n)

/-- One character of Go `fmt.Sprintf("%q", s)` (`strconv.Quote`):
quote and backslash are escaped, printable ASCII is kept, the special
control characters get their two-character escapes, remaining control
characters get `\xhh`.  Characters beyond ASCII are kept verbatim (the
`unicode.IsPrint` distinction never arises for the inputs at hand). -/
def quoteChar (c : Char) : Str :=
  if c = '"' then ['\\', '"']
  else if c = '\\' then ['\\', '\\']
  else if 0x20 ≤ c.toNat ∧ c.toNat < 0x7F then [c]
  else if 0x80 ≤ c.toNat then [c]
  else if c.toNat = 0x07 then ['\\', 'a']
  else if c.toNat = 0x08 then ['\\', 'b']
  else if c.toNat = 0x0C then ['\\', 'f']
  else if c = '\n' then ['\\', 'n']
  else if c = '\r' then ['\\', 'r']
  else if c = '\t' then ['\\', 't']
  else if c.toNat = 0x0B then ['\\', 'v']
  else ['\\', 'x', hexDigit (c.toNat / 16), hexDigit (c.toNat % 16)]

/-- Go `fmt.Sprintf("%q", s)`. -/
def goQuote (s : Str) : Str :=
  '"' :: (s.map quoteChar).flatten ++ ['"']

/-- Go `strings.ReplaceAll s (singleton old) r`. -/
def replaceAllChar (old : Char) (r : Str) (s : Str) : Str :=
  (s.map (fun c => if c = old then r else [c])).flatten

/-- Go `OpenMetricsFormatter.sanitizeLabelValue`: escape backslash first,
then newline, then double quote. -/
def sanitizeLabelValue (value : Str) : Str :=
  replaceAllChar '"' (str "\\\"")
    (replaceAllChar '\n' (str "\\n")
      (replaceAllChar '\\' (str "\\\\") value))

/-- Go `fmt.Sprintf("%d", i)`. -/
def intStr (i : Int) : Str := (toString i).data

/-- Go `OpenMetricsFormatter.buildClientLabels`. -/
def buildClientLabels (client : Client) (server : ServerConfig) : Str :=
  let labels : List Str :=
    [ str "common_name=" ++ goQuote (sanitizeLabelValue client.commonName),
      str "real_address=" ++ goQuote (sanitizeLabelValue client.realAddress),
      str "server_id=" ++ goQuote (sanitizeLabelValue server.id),
      str "virtual_address=" ++ goQuote (sanitizeLabelValue client.virtualAddress) ]
  let labels :=
    if ¬client.username.isEmpty then
      labels ++ [str "username=" ++ goQuote (sanitizeLabelValue client.username)]
    else labels
  str "\x7b" ++ joinOn ',' labels ++ str "\x7d"

/-- Go `OpenMetricsFormatter.buildRouteLabels`. -/
def buildRouteLabels (route : Route) (server : ServerConfig) : Str :=
  let labels : List Str :=
    [ str "virtual_address=" ++ goQuote (sanitizeLabelValue route.virtualAddress),
      str "common_name=" ++ goQuote (sanitizeLabelValue route.commonName),
      str "real_address=" ++ goQuote (sanitizeLabelValue route.realAddress),
      str "server_id=" ++ goQuote (sanitizeLabelValue server.id) ]
  str "\x7b" ++ joinOn ',' labels ++ str "\x7d"

/-- Go `OpenMetricsFormatter.buildInfoLabels`. -/
def buildInfoLabels (status : Status) (server : ServerConfig) : Str :=
  let labels : List Str :=
    [ str "title=" ++ goQuote (sanitizeLabelValue status.title),
      str "server_id=" ++ goQuote (sanitizeLabelValue server.id),
      str "server_local=" ++ goQuote (sanitizeLabelValue server.local_),
      str "server_port=" ++ goQuote (sanitizeLabelValue server.port),
      str "server_proto=" ++ goQuote (sanitizeLabelValue server.proto),
      str "server_dev=" ++ goQuote (sanitizeLabelValue server.dev) ]
  let labels :=
    if 0 < status.time.length then
      labels ++ [str "updated_at=" ++ goQuote (sanitizeLabelValue (status.time.getD 0 []))]
    else labels
  str "\x7b" ++ joinOn ',' labels ++ str "\x7d"

/-- Go `OpenMetricsFormatter.Format`.  `now` is the `time.Now().Unix()`
wall clock read at the top of the function.  `server := *status.Server`
is a nil dereference when no server is attached; `main` always attaches
one, and the model defaults the metadata to empty strings there. -/
def Format (status : Status) (now : Int) : Str :=
  let server := status.server.getD ⟨[], [], [], [], []⟩
  -- 1. Client bytes received (counter)
  let sec1 :=
    str "# HELP openvpn_client_bytes_received_total Total bytes received from client\n" ++
    str "# TYPE openvpn_client_bytes_received_total counter\n" ++
    (status.clientList.map (fun client =>
      str "openvpn_client_bytes_received_total" ++ buildClientLabels client server ++
      str " " ++ intStr client.bytesReceived ++ str "\n")).flatten
  -- 2. Client bytes sent (counter)
  let sec2 :=
    str "# HELP openvpn_client_bytes_sent_total Total bytes sent to client\n" ++
    str "# TYPE openvpn_client_bytes_sent_total counter\n" ++
    (status.clientList.map (fun client =>
      str "openvpn_client_bytes_sent_total" ++ buildClientLabels client server ++
      str " " ++ intStr client.bytesSent ++ str "\n")).flatten
  -- 3. Client connection duration (gauge)
  let sec3 :=
    str "# HELP openvpn_client_connected_duration_seconds Time in seconds since client connected\n" ++
    str "# TYPE openvpn_client_connected_duration_seconds gauge\n" ++
    (status.clientList.map (fun client =>
      str "openvpn_client_connected_duration_seconds" ++ buildClientLabels client server ++
      str " " ++ intStr (now - client.connectedSinceTime) ++ str "\n")).flatten
  -- 4. Client connected indicator (gauge, always 1)
  let sec4 :=
    str "# HELP openvpn_client_connected Client connection status (1 = connected)\n" ++
    str "# TYPE openvpn_client_connected gauge\n" ++
    (status.clientList.map (fun client =>
      str "openvpn_client_connected" ++ buildClientLabels client server ++ str " 1\n")).flatten
  let labels : List Str := [str "server_id=" ++ goQuote (sanitizeLabelValue server.id)]
  -- 5. Total connected clients (gauge)
  let sec5 :=
    str "# HELP openvpn_clients_connected_total Total number of connected clients\n" ++
    str "# TYPE openvpn_clients_connected_total gauge\n" ++
    str "openvpn_clients_connected_total\x7b" ++ joinOn ',' labels ++ str "\x7d " ++
    intStr (status.clientList.length : Int) ++ str "\n"
  -- 6. Total routing entries (gauge)
  let sec6 :=
    str "# HELP openvpn_routing_entries_total Total number of routing table entries\n" ++
    str "# TYPE openvpn_routing_entries_total gauge\n" ++
    str "openvpn_routing_entries_total\x7b" ++ joinOn ',' labels ++ str "\x7d " ++
    intStr (status.routingTable.length : Int) ++ str "\n"
  -- 7. Routing table last reference time (gauge)
  let sec7 :=
    str "# HELP openvpn_routing_last_ref_seconds Unix timestamp of last routing table reference\n" ++
    str "# TYPE openvpn_routing_last_ref_seconds gauge\n" ++
    (status.routingTable.map (fun route =>
      str "openvpn_routing_last_ref_seconds" ++ buildRouteLabels route server ++
      str " " ++ intStr route.lastRefTime ++ str "\n")).flatten
  -- 8. Status info metric
  let sec8 :=
    str "# HELP openvpn_status_info OpenVPN status file metadata\n" ++
    str "# TYPE openvpn_status_info gauge\n" ++
    str "openvpn_status_info" ++ buildInfoLabels status server ++ str " 1\n"
  -- 9. End of metrics marker
  sec1 ++ sec2 ++ sec3 ++ sec4 ++ sec5 ++ sec6 ++ sec7 ++ sec8 ++ str "# EOF\n"

/-- Number of occurrences of `pat` as a substring (at distinct start
positions). -/
def countOccur (pat : Str) : Str → Nat
  | [] => 0
  | c :: cs => (if pat.isPrefixOf (c :: cs) then 1 else 0) + countOccur pat cs

/-- The status the repository's own test
`TestOpenMetricsFormatterV1NoTimestamp` builds: one client whose connect
epoch (`ConnectedSinceTime`) is 0. -/
def zeroEpochStatus : Status :=
  { server := some ⟨str "test", [], [], [], []⟩,
    clientList :=
      [ { commonName := str "user1",
          realAddress := str "192.168.1.100:54321",
          bytesReceived := 1000,
          bytesSent := 2000,
          connectedSinceTime := 0 } ] }

/-- True when the numeric sub-field is non-empty and fails
`strconv.ParseInt` — exactly the case in which the Go code records a
`ParseError` for it. -/
def numFails (s : Str) : Bool :=
  !s.isEmpty && !(parseInt64 s).isOk

/-- The recoverable errors the scan loop of `ParseFile` collects for one
physical line `p.2` at (1-indexed) line number `p.1`: none for a blank
line, otherwise whatever the dispatched decoder returns.  The decoders'
errors do not depend on the accumulated status, so the fixed
`initialStatus` is passed. -/
def lineErrors (v : StatusVersion) (d : Char) (p : Nat × Str) : List GoError :=
  if (trimSpace p.2).isEmpty then []
  else ((parseLine (trimSpace p.2) initialStatus p.1 v d).2.map GoError.parse).toList

/-- A physical line that sets the title: after trimming and splitting on
`d` its type tag is `TITLE` and it has at least 2 fields. -/
abbrev IsTitleLine (d : Char) (l : Str) : Prop :=
  (splitOn d (trimSpace l)).getD 0 [] = str "TITLE" ∧
  2 ≤ (splitOn d (trimSpace l)).length

/-- A physical line that sets the time fields: after trimming and
splitting on `d` its type tag is `TIME` and it has at least 2 fields. -/
abbrev IsTimeLine (d : Char) (l : Str) : Prop :=
  (splitOn d (trimSpace l)).getD 0 [] = str "TIME" ∧
  2 ≤ (splitOn d (trimSpace l)).length

/-- The string is non-empty and starts with a non-space character. -/
def headOk : Str → Bool
  | [] => false
  | c :: _ => !goIsSpace c

/-- Side condition of the version-2/version-3 equivalence: the line's
fields contain neither delimiter, and the first field starts (and the
last field ends) with a non-space character, so that joining them with
either delimiter survives `strings.TrimSpace` and `strings.Split`
unchanged. -/
def lineFieldsOk (fs : List Str) : Bool :=
  !fs.isEmpty &&
  fs.all (fun f => decide (',' ∉ f) && decide ('\t' ∉ f)) &&
  headOk (fs.headD []) && headOk (fs.getLastD []).reverse

/-- A 12-field CLIENT_LIST record whose last (peer-id) field is empty:
no field contains a comma or a tab, yet the version-2 and version-3
renderings of it parse differently. -/
def c9BadFields : List Str :=
  [str "CLIENT_LIST", str "u", str "1.2.3.4:1", str "v", str "w",
   str "1", str "2", str "T", str "3", str "usr", str "4", str ""]

/-- A CLIENT_LIST v2/v3 field list whose bytes-received sub-field
(`xx`) is non-numeric. -/
def c3fields : List Str :=
  [str "CLIENT_LIST", str "u", str "1.2.3.4:1", str "v", str "w",
   str "xx", str "2", str "T", str "3", str "usr", str "4", str "5"]

/-- The status produced by parsing the single version-1 line
`u,1.2.3.4:5,1,2,T`. -/
def v1SampleStatus : Status :=
  (ParseFile (some [str "u,1.2.3.4:5,1,2,T"]) Version1).1.getD initialStatus
/-- The shape of every client a version-1 parse can produce: all
v2/v3-only fields still hold their Go zero values. -/
def V1ClientShape (c : Client) : Prop :=
  c.virtualAddress = [] ∧ c.virtualIPv6Address = [] ∧ c.username = [] ∧
  c.dataCipher = [] ∧ c.connectedSinceTime = 0 ∧ c.clientID = 0 ∧ c.peerID = 0

lemma splitOn_ne_nil (d : Char) (s : Str) : splitOn d s ≠ [] := by
  cases s with
  | nil => simp [splitOn]
  | cons c cs =>
    simp only [splitOn]
    split
    · simp
    · split <;> simp

lemma splitOn_no_occ (d : Char) (s : Str) (h : d ∉ s) : splitOn d s = [s] := by
  induction s with
  | nil => rfl
  | cons c cs ih =>
    have hc : c ≠ d := by rintro rfl; exact h (List.mem_cons_self _ _)
    have hcs : d ∉ cs := fun hm => h (List.mem_cons_of_mem _ hm)
    simp only [splitOn, if_neg hc, ih hcs]

lemma splitOn_append_cons (d : Char) (f t : Str) (h : d ∉ f) :
    splitOn d (f ++ d :: t) = f :: splitOn d t := by
  induction f with
  | nil => simp [splitOn]
  | cons c f' ih =>
    have hc : c ≠ d := by rintro rfl; exact h (List.mem_cons_self _ _)
    have hf' : d ∉ f' := fun hm => h (List.mem_cons_of_mem _ hm)
    have := ih hf'
    simp only [List.cons_append, splitOn, if_neg hc, List.append_eq, this]

lemma splitOn_joinOn (d : Char) (fs : List Str) (hne : fs ≠ [])
    (h : ∀ f ∈ fs, d ∉ f) : splitOn d (joinOn d fs) = fs := by
  induction fs with
  | nil => exact absurd rfl hne
  | cons f rest ih =>
    cases rest with
    | nil => exact splitOn_no_occ d f (h f (List.mem_cons_self _ _))
    | cons g rest' =>
      have hjoin : joinOn d (f :: g :: rest') = f ++ d :: joinOn d (g :: rest') := rfl
      rw [hjoin, splitOn_append_cons d f _ (h f (List.mem_cons_self _ _)),
        ih (by simp) (fun x hx => h x (List.mem_cons_of_mem _ hx))]

lemma dropWhile_eq_self_of_headOk (s : Str) (h : headOk s = true) :
    s.dropWhile goIsSpace = s := by
  cases s with
  | nil => rfl
  | cons c t =>
    have : goIsSpace c = false := by simpa [headOk] using h
    simp [List.dropWhile_cons, this]

lemma trimSpace_eq_self (s : Str) (h1 : headOk s = true)
    (h2 : headOk s.reverse = true) : trimSpace s = s := by
  unfold trimSpace
  rw [dropWhile_eq_self_of_headOk s h1, dropWhile_eq_self_of_headOk s.reverse h2,
    List.reverse_reverse]

lemma headOk_append (x y : Str) (h : headOk x = true) : headOk (x ++ y) = true := by
  cases x with
  | nil => simp [headOk] at h
  | cons c t => simpa [headOk] using h

lemma headOk_ne_nil (x : Str) (h : headOk x = true) : x ≠ [] := by
  cases x with
  | nil => simp [headOk] at h
  | cons c t => simp

lemma headOk_joinOn (d : Char) (fs : List Str) (h : headOk (fs.headD []) = true) :
    headOk (joinOn d fs) = true := by
  cases fs with
  | nil => simp [headOk] at h
  | cons f rest =>
    cases rest with
    | nil => simpa [joinOn] using h
    | cons g rest' =>
      have : joinOn d (f :: g :: rest') = f ++ d :: joinOn d (g :: rest') := rfl
      rw [this]
      exact headOk_append _ _ (by simpa using h)

lemma headOk_joinOn_reverse (d : Char) (fs : List Str)
    (h : headOk (fs.getLastD []).reverse = true) :
    headOk (joinOn d fs).reverse = true := by
  induction fs with
  | nil => simp [headOk] at h
  | cons f rest ih =>
    cases rest with
    | nil => simpa [joinOn] using h
    | cons g rest' =>
      have hj : joinOn d (f :: g :: rest') = f ++ d :: joinOn d (g :: rest') := rfl
      rw [hj, List.reverse_append]
      exact headOk_append _ _ (by
        rw [List.reverse_cons]
        exact headOk_append _ _ (ih (by simpa using h)))

lemma parseInt64_nil : parseInt64 [] = .error .syntaxError := rfl

lemma parseNumField_of_empty (s : Str) (name : String) (n : Nat) (h : s = []) :
    parseNumField s name n = (0, none) := by
  subst h; rfl

lemma parseNumField_of_ok (s : Str) (name : String) (n : Nat) (v : Int)
    (h : parseInt64 s = .ok v) : parseNumField s name n = (v, none) := by
  have hs : s.isEmpty = false := by
    cases s with
    | nil => simp [parseInt64_nil] at h
    | cons c t => rfl
  simp [parseNumField, hs, h]

lemma parseNumField_of_err (s : Str) (name : String) (n : Nat) (k : NumErr)
    (hs : s ≠ []) (h : parseInt64 s = .error k) :
    parseNumField s name n = (0, some ⟨n, str name, s, .num k s⟩) := by
  have hs' : s.isEmpty = false := by cases s with
    | nil => exact absurd rfl hs
    | cons c t => rfl
  simp [parseNumField, hs', h]

lemma parseNumField_snd_none (s : Str) (name : String) (n : Nat)
    (h : numFails s = false) : (parseNumField s name n).2 = none := by
  by_cases he : s.isEmpty
  · have : s = [] := by cases s <;> simp_all
    rw [parseNumField_of_empty s name n this]
  · have hok : (parseInt64 s).isOk = true := by
      simp [numFails, he] at h; exact h
    match hp : parseInt64 s with
    | .ok v => rw [parseNumField_of_ok s name n v hp]
    | .error k => rw [hp] at hok; simp [Except.isOk, Except.toBool] at hok

lemma parseNumField_fst_zero_of_empty (s : Str) (name : String) (n : Nat)
    (h : s = []) : (parseNumField s name n).1 = 0 := by
  rw [parseNumField_of_empty s name n h]

lemma parseNumField_fst_zero_of_err (s : Str) (name : String) (n : Nat) (k : NumErr)
    (h : parseInt64 s = .error k) : (parseNumField s name n).1 = 0 := by
  by_cases he : s = []
  · rw [parseNumField_of_empty s name n he]
  · rw [parseNumField_of_err s name n k he h]

lemma handleTitle_snd_indep (fs : List Str) (st st' : Status) (n : Nat) :
    (handleTitle fs st n).2 = (handleTitle fs st' n).2 := by
  unfold handleTitle; split <;> rfl

lemma handleTime_snd_indep (fs : List Str) (st st' : Status) (n : Nat) :
    (handleTime fs st n).2 = (handleTime fs st' n).2 := by
  unfold handleTime; split <;> rfl

lemma handleClientListV1_snd_indep (fs : List Str) (st st' : Status) (n : Nat) :
    (handleClientListV1 fs st n).2 = (handleClientListV1 fs st' n).2 := by
  unfold handleClientListV1; split <;> rfl

lemma handleClientListV2V3_snd_indep (fs : List Str) (st st' : Status) (n : Nat) :
    (handleClientListV2V3 fs st n).2 = (handleClientListV2V3 fs st' n).2 := by
  unfold handleClientListV2V3; split <;> rfl

lemma handleRoutingTable_snd_indep (fs : List Str) (st st' : Status) (n : Nat) :
    (handleRoutingTable fs st n).2 = (handleRoutingTable fs st' n).2 := by
  unfold handleRoutingTable; split <;> rfl

lemma parseLine_snd_indep (l : Str) (st st' : Status) (n : Nat)
    (v : StatusVersion) (d : Char) :
    (parseLine l st n v d).2 = (parseLine l st' n v d).2 := by
  simp only [parseLine]
  split
  · rfl
  · split
    · exact handleClientListV1_snd_indep _ _ _ _
    · split
      · exact handleTitle_snd_indep _ _ _ _
      · split
        · exact handleTime_snd_indep _ _ _ _
        · split
          · rfl
          · split
            · exact handleClientListV2V3_snd_indep _ _ _ _
            · split
              · exact handleRoutingTable_snd_indep _ _ _ _
              · rfl

lemma parseNumField_fst_indep (s : Str) (name : String) (n n' : Nat) :
    (parseNumField s name n).1 = (parseNumField s name n').1 := by
  unfold parseNumField
  split
  · rfl
  · split <;> rfl

lemma handleTitle_fst_indep (fs : List Str) (st : Status) (n n' : Nat) :
    (handleTitle fs st n).1 = (handleTitle fs st n').1 := by
  unfold handleTitle; split <;> rfl

lemma handleTime_fst_indep (fs : List Str) (st : Status) (n n' : Nat) :
    (handleTime fs st n).1 = (handleTime fs st n').1 := by
  unfold handleTime; split <;> rfl

lemma handleClientListV1_fst_indep (fs : List Str) (st : Status) (n n' : Nat) :
    (handleClientListV1 fs st n).1 = (handleClientListV1 fs st n').1 := by
  unfold handleClientListV1
  split
  · rfl
  · simp only [parseNumField_fst_indep _ _ n n']

lemma handleClientListV2V3_fst_indep (fs : List Str) (st : Status) (n n' : Nat) :
    (handleClientListV2V3 fs st n).1 = (handleClientListV2V3 fs st n').1 := by
  unfold handleClientListV2V3
  split
  · rfl
  · simp only [parseNumField_fst_indep _ _ n n']

lemma handleRoutingTable_fst_indep (fs : List Str) (st : Status) (n n' : Nat) :
    (handleRoutingTable fs st n).1 = (handleRoutingTable fs st n').1 := by
  unfold handleRoutingTable
  split
  · rfl
  · simp only [parseNumField_fst_indep _ _ n n']

lemma parseLine_fst_indep (l : Str) (st : Status) (n n' : Nat)
    (v : StatusVersion) (d : Char) :
    (parseLine l st n v d).1 = (parseLine l st n' v d).1 := by
  simp only [parseLine]
  split
  · rfl
  · split
    · exact handleClientListV1_fst_indep _ _ _ _
    · split
      · exact handleTitle_fst_indep _ _ _ _
      · split
        · exact handleTime_fst_indep _ _ _ _
        · split
          · rfl
          · split
            · exact handleClientListV2V3_fst_indep _ _ _ _
            · split
              · exact handleRoutingTable_fst_indep _ _ _ _
              · rfl

lemma scanLines_nil (st : Status) (n : Nat) (v : StatusVersion) (d : Char) :
    scanLines [] st n v d = (st, []) := rfl

lemma scanLines_cons_blank (l : Str) (ls : List Str) (st : Status) (n : Nat)
    (v : StatusVersion) (d : Char) (h : (trimSpace l).isEmpty = true) :
    scanLines (l :: ls) st n v d = scanLines ls st (n + 1) v d := by
  simp only [scanLines, h, if_pos]

lemma scanLines_cons (l : Str) (ls : List Str) (st : Status) (n : Nat)
    (v : StatusVersion) (d : Char) (h : (trimSpace l).isEmpty = false) :
    scanLines (l :: ls) st n v d =
      ((scanLines ls (parseLine (trimSpace l) st n v d).1 (n + 1) v d).1,
       ((parseLine (trimSpace l) st n v d).2.map GoError.parse).toList ++
         (scanLines ls (parseLine (trimSpace l) st n v d).1 (n + 1) v d).2) := by
  simp only [scanLines, h]
  rfl

lemma scanLines_snd_eq (ls : List Str) (st : Status) (n : Nat)
    (v : StatusVersion) (d : Char) :
    (scanLines ls st n v d).2 = ((ls.enumFrom n).map (lineErrors v d)).flatten := by
  induction ls generalizing st n with
  | nil => rfl
  | cons l ls ih =>
    rw [List.enumFrom_cons, List.map_cons, List.flatten_cons]
    by_cases h : (trimSpace l).isEmpty
    · rw [scanLines_cons_blank l ls st n v d h, ih]
      simp [lineErrors, h]
    · rw [scanLines_cons l ls st n v d (by simpa using h), ih]
      simp only [lineErrors, Bool.not_eq_true] at h ⊢
      rw [if_neg (by simp [h]), parseLine_snd_indep (trimSpace l) st initialStatus n v d]

lemma scanLines_fst_indep_n (ls : List Str) (st : Status) (n n' : Nat)
    (v : StatusVersion) (d : Char) :
    (scanLines ls st n v d).1 = (scanLines ls st n' v d).1 := by
  induction ls generalizing st n n' with
  | nil => rfl
  | cons l ls ih =>
    by_cases h : (trimSpace l).isEmpty
    · rw [scanLines_cons_blank l ls st n v d h, scanLines_cons_blank l ls st n' v d h]
      exact ih st (n + 1) (n' + 1)
    · rw [scanLines_cons l ls st n v d (by simpa using h),
        scanLines_cons l ls st n' v d (by simpa using h)]
      simp only []
      rw [parseLine_fst_indep (trimSpace l) st n n' v d]
      exact ih _ (n + 1) (n' + 1)

lemma scanLines_fst_filter_blank (ls : List Str) (st : Status) (n n' : Nat)
    (v : StatusVersion) (d : Char) :
    (scanLines ls st n v d).1 =
      (scanLines (ls.filter (fun l => !(trimSpace l).isEmpty)) st n' v d).1 := by
  induction ls generalizing st n n' with
  | nil => rfl
  | cons l ls ih =>
    by_cases h : (trimSpace l).isEmpty
    · rw [scanLines_cons_blank l ls st n v d h]
      have : (l :: ls).filter (fun l => !(trimSpace l).isEmpty) =
          ls.filter (fun l => !(trimSpace l).isEmpty) := by
        simp [List.filter_cons, h]
      rw [this]
      exact ih st (n + 1) n'
    · have hf : (l :: ls).filter (fun l => !(trimSpace l).isEmpty) =
          l :: ls.filter (fun l => !(trimSpace l).isEmpty) := by
        simp [List.filter_cons, h]
      rw [hf, scanLines_cons l ls st n v d (by simpa using h),
        scanLines_cons l _ st n' v d (by simpa using h)]
      simp only []
      rw [parseLine_fst_indep (trimSpace l) st n n' v d]
      exact ih _ (n + 1) (n' + 1)

/-- C8: `getStatusVersion` maps every configured status-version integer
outside 1, 2, 3 to version 3, and maps 1, 2, 3 to themselves. -/
theorem getStatusVersion_fallback (n : Int) :
    (n ≠ 1 ∧ n ≠ 2 ∧ n ≠ 3 → getStatusVersion n = Version3) ∧
    getStatusVersion 1 = Version1 ∧ getStatusVersion 2 = Version2 ∧
    getStatusVersion 3 = Version3 := by
  refine ⟨fun h => ?_, by decide, by decide, by decide⟩
  obtain ⟨h1, h2, h3⟩ := h
  simp [getStatusVersion, h1, h2, h3]

/-- Witness for C8: the configured value 9 is out of range and the
effective parse version is 3. -/
theorem getStatusVersion_fallback_witness :
    ((9 : Int) ≠ 1 ∧ (9 : Int) ≠ 2 ∧ (9 : Int) ≠ 3) ∧ getStatusVersion 9 = Version3 :=
  ⟨by decide, (getStatusVersion_fallback 9).1 (by decide)⟩

set_option maxRecDepth 40000 in
/-- C1 (contradicting the spec): the stored real address is the input
real-address field truncated at its FIRST colon, not at the last
address/port separator: a v1 client line, a v2/v3 CLIENT_LIST line and a
ROUTING_TABLE line whose real address is the IPv6-with-port
`fe80::1:9999` (respectively `fe80::2:9999`) all store `fe80`, not
`fe80::1` (respectively `fe80::2`). -/
theorem realAddress_truncated_at_first_colon :
    ((ParseFile (some [str "user1,fe80::1:9999,100,200,T1"]) Version1).1.map
      (fun st => st.clientList.map (fun c => c.realAddress))) = some [str "fe80"] ∧
    ((ParseFile (some [str "CLIENT_LIST,u,fe80::1:9999,10.8.0.2,,1,2,T,3,u,4,5",
        str "ROUTING_TABLE,10.8.0.2,u,fe80::2:9999,T,5"]) Version2).1.map
      (fun st => (st.clientList.map (fun c => c.realAddress),
                  st.routingTable.map (fun r => r.realAddress)))) =
      some ([str "fe80"], [str "fe80"]) := by
  decide

/-- C2: a CLIENT_LIST line with fewer fields than the version's minimum
(5 for v1, 12 for v2/v3) yields exactly one recoverable error and leaves
the status — in particular its client list — unchanged. -/
theorem short_client_line_one_error_no_record (fields : List Str) (st : Status) (n : Nat) :
    (fields.length < 5 →
      handleClientListV1 fields st n =
        (st, some ⟨n, str "CLIENT_LIST_V1", joinOn ',' fields,
          .fieldCount 5 fields.length⟩)) ∧
    (fields.length < 12 →
      handleClientListV2V3 fields st n =
        (st, some ⟨n, str "CLIENT_LIST", joinOn ',' fields,
          .fieldCount 12 fields.length⟩)) := by
  constructor <;> intro h
  · simp [handleClientListV1, h]
  · simp [handleClientListV2V3, h]

/-- Witness for C2 at a concrete one-field line. -/
theorem short_client_line_one_error_no_record_witness :
    handleClientListV1 [str "u"] initialStatus 3 =
      (initialStatus, some ⟨3, str "CLIENT_LIST_V1", joinOn ',' [str "u"],
        .fieldCount 5 [str "u"].length⟩) ∧
    handleClientListV2V3 [str "u"] initialStatus 3 =
      (initialStatus, some ⟨3, str "CLIENT_LIST", joinOn ',' [str "u"],
        .fieldCount 12 [str "u"].length⟩) :=
  ⟨(short_client_line_one_error_no_record [str "u"] initialStatus 3).1 (by decide),
   (short_client_line_one_error_no_record [str "u"] initialStatus 3).2 (by decide)⟩

set_option maxRecDepth 400000 in
/-- C5 (contradicting the spec and the repository's own test): the
per-client connection-duration gauge is emitted even for a client whose
connect epoch is zero — on the status of
`TestOpenMetricsFormatterV1NoTimestamp` (one client, connect epoch 0)
the exposition contains exactly one
`openvpn_client_connected_duration_seconds` sample. -/
theorem duration_gauge_emitted_for_zero_epoch_client :
    zeroEpochStatus.clientList.map (fun c => c.connectedSinceTime) = [0] ∧
    countOccur (str "openvpn_client_connected_duration_seconds\x7b")
      (Format zeroEpochStatus 1732704645) = 1 := by
  decide

/-- C7: under any non-v1 version, a line whose first field is `TITLE`
with at least 2 fields sets the title to field 1 verbatim; with fewer
than 2 fields it yields one recoverable error and leaves the status
unchanged; and correspondingly for `TIME`, which stores all post-tag
fields verbatim in order. -/
theorem title_time_line_decoding (l : Str) (st : Status) (n : Nat)
    (v : StatusVersion) (d : Char) (hv : v ≠ Version1) :
    ((splitOn d l).getD 0 [] = str "TITLE" →
      (2 ≤ (splitOn d l).length →
        parseLine l st n v d = ({ st with title := (splitOn d l).getD 1 [] }, none)) ∧
      ((splitOn d l).length < 2 →
        parseLine l st n v d =
          (st, some ⟨n, str "TITLE", joinOn ',' (splitOn d l),
            .fieldCount 2 (splitOn d l).length⟩))) ∧
    ((splitOn d l).getD 0 [] = str "TIME" →
      (2 ≤ (splitOn d l).length →
        parseLine l st n v d = ({ st with time := (splitOn d l).drop 1 }, none)) ∧
      ((splitOn d l).length < 2 →
        parseLine l st n v d =
          (st, some ⟨n, str "TIME", joinOn ',' (splitOn d l),
            .fieldCount 2 (splitOn d l).length⟩))) := by
  have hlen : ¬(splitOn d l).length = 0 := by
    simpa [List.length_eq_zero] using splitOn_ne_nil d l
  constructor
  · intro htag
    simp only [parseLine, if_neg hlen, if_neg hv, if_pos htag]
    constructor <;> intro h2
    · simp [handleTitle, Nat.not_lt.mpr h2]
    · simp [handleTitle, h2]
  · intro htag
    have hne : ¬(splitOn d l).getD 0 [] = str "TITLE" := by
      rw [htag]; decide
    simp only [parseLine, if_neg hlen, if_neg hv, if_neg hne, if_pos htag]
    constructor <;> intro h2
    · simp [handleTime, Nat.not_lt.mpr h2]
    · simp [handleTime, h2]

/-- Witness for C7: a concrete `TITLE` line with 2 fields sets the
title; a concrete bare `TIME` line yields the single field-count
error. -/
theorem title_time_line_decoding_witness :
    parseLine (str "TITLE,X") initialStatus 1 Version2 ',' =
      ({ initialStatus with title := str "X" }, none) ∧
    parseLine (str "TIME") initialStatus 2 Version2 ',' =
      (initialStatus, some ⟨2, str "TIME", str "TIME", .fieldCount 2 1⟩) := by
  constructor
  · exact (((title_time_line_decoding (str "TITLE,X") initialStatus 1 Version2 ','
      (by decide)).1 (by decide)).1 (by decide)).trans (by decide)
  · exact (((title_time_line_decoding (str "TIME") initialStatus 2 Version2 ','
      (by decide)).2 (by decide)).2 (by decide)).trans (by decide)

/-- C4: `ParseFile` returns an absent model exactly for an unopenable
file, and then the error list is the single fatal open-error; for a
readable file the model is always present, the error list is exactly the
concatenation, in line order, of each line's decode errors (so the scan
never halts), blank-after-trim lines have no effect on the model, and
the error list is empty iff every line decoded cleanly. -/
theorem ParseFile_error_model (v : StatusVersion) (lines : List Str) :
    ParseFile none v = (none, [GoError.openError]) ∧
    (ParseFile (some lines) v).1 ≠ none ∧
    (ParseFile (some lines) v).2 =
      ((lines.enumFrom 1).map (lineErrors v (delimiterOf v))).flatten ∧
    (ParseFile (some lines) v).1 =
      (ParseFile (some (lines.filter (fun l => !(trimSpace l).isEmpty))) v).1 ∧
    ((ParseFile (some lines) v).2 = [] ↔
      ∀ p ∈ lines.enumFrom 1, lineErrors v (delimiterOf v) p = []) := by
  refine ⟨rfl, by simp [ParseFile], ?_, ?_, ?_⟩
  · simpa [ParseFile] using scanLines_snd_eq lines initialStatus 1 v (delimiterOf v)
  · simp only [ParseFile]
    exact congrArg some
      (scanLines_fst_filter_blank lines initialStatus 1 1 v (delimiterOf v))
  · rw [show (ParseFile (some lines) v).2 =
        (scanLines lines initialStatus 1 v (delimiterOf v)).2 from rfl,
      scanLines_snd_eq, List.flatten_eq_nil_iff]
    constructor
    · intro h p hp
      exact h _ (List.mem_map_of_mem _ hp)
    · intro h x hx
      obtain ⟨p, hp, rfl⟩ := List.mem_map.1 hx
      exact h p hp

/-- Witness for C4: the concrete unopenable file and a concrete readable
file with one decodable line and one blank line. -/
theorem ParseFile_error_model_witness :
    ParseFile none Version3 = (none, [GoError.openError]) ∧
    (ParseFile (some [str "TITLE\tX", str "  "]) Version3).2 = [] := by
  constructor
  · exact (ParseFile_error_model Version3 []).1
  · rw [((ParseFile_error_model Version3 [str "TITLE\tX", str "  "]).2.2.2.2).2 (by decide)]

lemma handleClientListV1_inv (fs : List Str) (st : Status) (n : Nat) :
    (handleClientListV1 fs st n).1.title = st.title ∧
    (handleClientListV1 fs st n).1.time = st.time ∧
    (handleClientListV1 fs st n).1.routingTable = st.routingTable ∧
    ∀ c ∈ (handleClientListV1 fs st n).1.clientList,
      c ∈ st.clientList ∨ V1ClientShape c := by
  unfold handleClientListV1
  split
  · exact ⟨rfl, rfl, rfl, fun c hc => Or.inl hc⟩
  · refine ⟨rfl, rfl, rfl, fun c hc => ?_⟩
    dsimp only at hc
    rcases List.mem_append.1 hc with h | h
    · exact Or.inl h
    · rw [List.mem_singleton.1 h]
      exact Or.inr ⟨rfl, rfl, rfl, rfl, rfl, rfl, rfl⟩

lemma parseLine_v1_inv (l : Str) (st : Status) (n : Nat) (d : Char) :
    (parseLine l st n Version1 d).1.title = st.title ∧
    (parseLine l st n Version1 d).1.time = st.time ∧
    (parseLine l st n Version1 d).1.routingTable = st.routingTable ∧
    ∀ c ∈ (parseLine l st n Version1 d).1.clientList,
      c ∈ st.clientList ∨ V1ClientShape c := by
  simp only [parseLine]
  split
  · exact ⟨rfl, rfl, rfl, fun c hc => Or.inl hc⟩
  · simp only [if_true]
    exact handleClientListV1_inv _ _ _

lemma scanLines_v1_inv (ls : List Str) (st : Status) (n : Nat) (d : Char)
    (h1 : st.title = []) (h2 : st.time = []) (h3 : st.routingTable = [])
    (h4 : ∀ c ∈ st.clientList, V1ClientShape c) :
    (scanLines ls st n Version1 d).1.title = [] ∧
    (scanLines ls st n Version1 d).1.time = [] ∧
    (scanLines ls st n Version1 d).1.routingTable = [] ∧
    ∀ c ∈ (scanLines ls st n Version1 d).1.clientList, V1ClientShape c := by
  induction ls generalizing st n with
  | nil => exact ⟨h1, h2, h3, h4⟩
  | cons l ls ih =>
    by_cases hb : (trimSpace l).isEmpty
    · rw [scanLines_cons_blank l ls st n Version1 d hb]
      exact ih st (n + 1) h1 h2 h3 h4
    · rw [scanLines_cons l ls st n Version1 d (by simpa using hb)]
      obtain ⟨p1, p2, p3, p4⟩ := parseLine_v1_inv (trimSpace l) st n d
      exact ih _ (n + 1) (p1.trans h1) (p2.trans h2) (p3.trans h3)
        (fun c hc => (p4 c hc).elim (fun hm => h4 c hm) id)

/-- C6: a version-1 parse never populates the v2/v3-only data: every
client in the resulting model has empty virtual address, virtual IPv6
address, username and cipher and zero connect epoch, client id and peer
id, and the model's title, time fields and routing table stay empty. -/
theorem v1_parse_minimal_model (lines : List Str) (st : Status) (errs : List GoError)
    (h : ParseFile (some lines) Version1 = (some st, errs)) :
    st.title = [] ∧ st.time = [] ∧ st.routingTable = [] ∧
    ∀ c ∈ st.clientList,
      c.virtualAddress = [] ∧ c.virtualIPv6Address = [] ∧ c.username = [] ∧
      c.dataCipher = [] ∧ c.connectedSinceTime = 0 ∧ c.clientID = 0 ∧
      c.peerID = 0 := by
  have hst : st = (scanLines lines initialStatus 1 Version1 (delimiterOf Version1)).1 := by
    have hfst := congrArg Prod.fst h
    simp only [ParseFile] at hfst
    exact (Option.some.inj hfst).symm
  subst hst
  exact scanLines_v1_inv lines initialStatus 1 (delimiterOf Version1) rfl rfl rfl
    (fun c hc => absurd hc (List.not_mem_nil c))

set_option maxRecDepth 40000 in
/-- Witness for C6 at the concrete one-line version-1 file
`u,1.2.3.4:5,1,2,T`. -/
theorem v1_parse_minimal_model_witness :
    v1SampleStatus.title = [] ∧ v1SampleStatus.time = [] ∧
    v1SampleStatus.routingTable = [] ∧
    ∀ c ∈ v1SampleStatus.clientList,
      c.virtualAddress = [] ∧ c.virtualIPv6Address = [] ∧ c.username = [] ∧
      c.dataCipher = [] ∧ c.connectedSinceTime = 0 ∧ c.clientID = 0 ∧
      c.peerID = 0 :=
  v1_parse_minimal_model [str "u,1.2.3.4:5,1,2,T"] v1SampleStatus
    (ParseFile (some [str "u,1.2.3.4:5,1,2,T"]) Version1).2 (by decide)

/-- C3: on a line meeting its record type's field-count floor, an empty
numeric sub-field yields 0 with no error and a non-empty non-numeric one
yields 0 plus a Parse Error citing that field name, the line number and
the raw text; the record is appended regardless, and when several
numeric sub-fields fail only the first failing field's error is
reported.  Stated for the v1 client decoder (fields 2, 3), the v2/v3
client decoder (fields 5, 6, 8, 10, 11) and the routing-table decoder
(field 5). -/
theorem numeric_subfield_policy (fields : List Str) (st : Status) (n : Nat) :
    (5 ≤ fields.length →
      (∃ c, (handleClientListV1 fields st n).1 =
          { st with clientList := st.clientList ++ [c] } ∧
        (fields.getD 2 [] = [] → c.bytesReceived = 0) ∧
        (∀ k, parseInt64 (fields.getD 2 []) = .error k → c.bytesReceived = 0) ∧
        (fields.getD 3 [] = [] → c.bytesSent = 0) ∧
        (∀ k, parseInt64 (fields.getD 3 []) = .error k → c.bytesSent = 0)) ∧
      (numFails (fields.getD 2 []) = false → numFails (fields.getD 3 []) = false →
        (handleClientListV1 fields st n).2 = none) ∧
      (∀ k, fields.getD 2 [] ≠ [] → parseInt64 (fields.getD 2 []) = .error k →
        (handleClientListV1 fields st n).2 =
          some ⟨n, str "bytesReceived", fields.getD 2 [], .num k (fields.getD 2 [])⟩) ∧
      (∀ k, numFails (fields.getD 2 []) = false →
        fields.getD 3 [] ≠ [] → parseInt64 (fields.getD 3 []) = .error k →
        (handleClientListV1 fields st n).2 =
          some ⟨n, str "bytesSent", fields.getD 3 [], .num k (fields.getD 3 [])⟩)) ∧
    (12 ≤ fields.length →
      (∃ c, (handleClientListV2V3 fields st n).1 =
          { st with clientList := st.clientList ++ [c] } ∧
        (fields.getD 5 [] = [] → c.bytesReceived = 0) ∧
        (∀ k, parseInt64 (fields.getD 5 []) = .error k → c.bytesReceived = 0) ∧
        (fields.getD 6 [] = [] → c.bytesSent = 0) ∧
        (∀ k, parseInt64 (fields.getD 6 []) = .error k → c.bytesSent = 0) ∧
        (fields.getD 8 [] = [] → c.connectedSinceTime = 0) ∧
        (∀ k, parseInt64 (fields.getD 8 []) = .error k → c.connectedSinceTime = 0) ∧
        (fields.getD 10 [] = [] → c.clientID = 0) ∧
        (∀ k, parseInt64 (fields.getD 10 []) = .error k → c.clientID = 0) ∧
        (fields.getD 11 [] = [] → c.peerID = 0) ∧
        (∀ k, parseInt64 (fields.getD 11 []) = .error k → c.peerID = 0)) ∧
      (numFails (fields.getD 5 []) = false → numFails (fields.getD 6 []) = false →
        numFails (fields.getD 8 []) = false → numFails (fields.getD 10 []) = false →
        numFails (fields.getD 11 []) = false →
        (handleClientListV2V3 fields st n).2 = none) ∧
      (∀ k, fields.getD 5 [] ≠ [] → parseInt64 (fields.getD 5 []) = .error k →
        (handleClientListV2V3 fields st n).2 =
          some ⟨n, str "bytesReceived", fields.getD 5 [], .num k (fields.getD 5 [])⟩) ∧
      (∀ k, numFails (fields.getD 5 []) = false →
        fields.getD 6 [] ≠ [] → parseInt64 (fields.getD 6 []) = .error k →
        (handleClientListV2V3 fields st n).2 =
          some ⟨n, str "bytesSent", fields.getD 6 [], .num k (fields.getD 6 [])⟩) ∧
      (∀ k, numFails (fields.getD 5 []) = false → numFails (fields.getD 6 []) = false →
        fields.getD 8 [] ≠ [] → parseInt64 (fields.getD 8 []) = .error k →
        (handleClientListV2V3 fields st n).2 =
          some ⟨n, str "connectedSinceTime", fields.getD 8 [],
            .num k (fields.getD 8 [])⟩) ∧
      (∀ k, numFails (fields.getD 5 []) = false → numFails (fields.getD 6 []) = false →
        numFails (fields.getD 8 []) = false →
        fields.getD 10 [] ≠ [] → parseInt64 (fields.getD 10 []) = .error k →
        (handleClientListV2V3 fields st n).2 =
          some ⟨n, str "clientId", fields.getD 10 [], .num k (fields.getD 10 [])⟩) ∧
      (∀ k, numFails (fields.getD 5 []) = false → numFails (fields.getD 6 []) = false →
        numFails (fields.getD 8 []) = false → numFails (fields.getD 10 []) = false →
        fields.getD 11 [] ≠ [] → parseInt64 (fields.getD 11 []) = .error k →
        (handleClientListV2V3 fields st n).2 =
          some ⟨n, str "peerId", fields.getD 11 [], .num k (fields.getD 11 [])⟩)) ∧
    (6 ≤ fields.length →
      (∃ r, (handleRoutingTable fields st n).1 =
          { st with routingTable := st.routingTable ++ [r] } ∧
        (fields.getD 5 [] = [] → r.lastRefTime = 0) ∧
        (∀ k, parseInt64 (fields.getD 5 []) = .error k → r.lastRefTime = 0)) ∧
      (numFails (fields.getD 5 []) = false → (handleRoutingTable fields st n).2 = none) ∧
      (∀ k, fields.getD 5 [] ≠ [] → parseInt64 (fields.getD 5 []) = .error k →
        (handleRoutingTable fields st n).2 =
          some ⟨n, str "lastRefTime", fields.getD 5 [],
            .num k (fields.getD 5 [])⟩)) := by
  refine ⟨fun h5 => ?_, fun h12 => ?_, fun h6 => ?_⟩
  · unfold handleClientListV1
    rw [if_neg (Nat.not_lt.mpr h5)]
    dsimp only
    refine ⟨⟨_, rfl, ?_, ?_, ?_, ?_⟩, ?_, ?_, ?_⟩
    · intro h; exact parseNumField_fst_zero_of_empty _ _ _ h
    · intro k hk; exact parseNumField_fst_zero_of_err _ _ _ k hk
    · intro h; exact parseNumField_fst_zero_of_empty _ _ _ h
    · intro k hk; exact parseNumField_fst_zero_of_err _ _ _ k hk
    · intro f2 f3
      rw [parseNumField_snd_none _ _ _ f2, parseNumField_snd_none _ _ _ f3]
      rfl
    · intro k hne hk
      rw [parseNumField_of_err _ _ _ k hne hk]
      rfl
    · intro k f2 hne hk
      rw [parseNumField_snd_none _ _ _ f2, parseNumField_of_err _ _ _ k hne hk]
      rfl
  · unfold handleClientListV2V3
    rw [if_neg (Nat.not_lt.mpr h12)]
    dsimp only
    refine ⟨⟨_, rfl, ?_, ?_, ?_, ?_, ?_, ?_, ?_, ?_, ?_, ?_⟩, ?_, ?_, ?_, ?_, ?_, ?_⟩
    · intro h; exact parseNumField_fst_zero_of_empty _ _ _ h
    · intro k hk; exact parseNumField_fst_zero_of_err _ _ _ k hk
    · intro h; exact parseNumField_fst_zero_of_empty _ _ _ h
    · intro k hk; exact parseNumField_fst_zero_of_err _ _ _ k hk
    · intro h; exact parseNumField_fst_zero_of_empty _ _ _ h
    · intro k hk; exact parseNumField_fst_zero_of_err _ _ _ k hk
    · intro h; exact parseNumField_fst_zero_of_empty _ _ _ h
    · intro k hk; exact parseNumField_fst_zero_of_err _ _ _ k hk
    · intro h; exact parseNumField_fst_zero_of_empty _ _ _ h
    · intro k hk; exact parseNumField_fst_zero_of_err _ _ _ k hk
    · intro f5 f6 f8 f10 f11
      rw [parseNumField_snd_none _ _ _ f5, parseNumField_snd_none _ _ _ f6,
        parseNumField_snd_none _ _ _ f8, parseNumField_snd_none _ _ _ f10,
        parseNumField_snd_none _ _ _ f11]
      rfl
    · intro k hne hk
      rw [parseNumField_of_err _ _ _ k hne hk]
      rfl
    · intro k f5 hne hk
      rw [parseNumField_snd_none _ _ _ f5, parseNumField_of_err _ _ _ k hne hk]
      rfl
    · intro k f5 f6 hne hk
      rw [parseNumField_snd_none _ _ _ f5, parseNumField_snd_none _ _ _ f6,
        parseNumField_of_err _ _ _ k hne hk]
      rfl
    · intro k f5 f6 f8 hne hk
      rw [parseNumField_snd_none _ _ _ f5, parseNumField_snd_none _ _ _ f6,
        parseNumField_snd_none _ _ _ f8, parseNumField_of_err _ _ _ k hne hk]
      rfl
    · intro k f5 f6 f8 f10 hne hk
      rw [parseNumField_snd_none _ _ _ f5, parseNumField_snd_none _ _ _ f6,
        parseNumField_snd_none _ _ _ f8, parseNumField_snd_none _ _ _ f10,
        parseNumField_of_err _ _ _ k hne hk]
      rfl
  · unfold handleRoutingTable
    rw [if_neg (Nat.not_lt.mpr h6)]
    dsimp only
    refine ⟨⟨_, rfl, ?_, ?_⟩, ?_, ?_⟩
    · intro h; exact parseNumField_fst_zero_of_empty _ _ _ h
    · intro k hk; exact parseNumField_fst_zero_of_err _ _ _ k hk
    · intro f5
      rw [parseNumField_snd_none _ _ _ f5]
      rfl
    · intro k hne hk
      rw [parseNumField_of_err _ _ _ k hne hk]
      rfl

/-- Witness for C3: on the concrete 12-field CLIENT_LIST record whose
bytes-received sub-field is the non-numeric `xx`, the record's decode
reports exactly the bytesReceived Parse Error. -/
theorem numeric_subfield_policy_witness :
    12 ≤ c3fields.length ∧
    (handleClientListV2V3 c3fields initialStatus 7).2 =
      some ⟨7, str "bytesReceived", str "xx", .num .syntaxError (str "xx")⟩ := by
  refine ⟨by decide, ?_⟩
  have h := (((numeric_subfield_policy c3fields initialStatus 7).2.1 (by decide)).2.2.1)
    NumErr.syntaxError (by decide) (by rfl)
  exact h.trans (by decide)

lemma handleTime_title_eq (fs : List Str) (st : Status) (n : Nat) :
    (handleTime fs st n).1.title = st.title := by
  unfold handleTime; split <;> rfl

lemma handleClientListV2V3_title_eq (fs : List Str) (st : Status) (n : Nat) :
    (handleClientListV2V3 fs st n).1.title = st.title := by
  unfold handleClientListV2V3; split <;> rfl

lemma handleRoutingTable_title_eq (fs : List Str) (st : Status) (n : Nat) :
    (handleRoutingTable fs st n).1.title = st.title := by
  unfold handleRoutingTable; split <;> rfl

lemma handleTitle_time_eq (fs : List Str) (st : Status) (n : Nat) :
    (handleTitle fs st n).1.time = st.time := by
  unfold handleTitle; split <;> rfl

lemma handleClientListV2V3_time_eq (fs : List Str) (st : Status) (n : Nat) :
    (handleClientListV2V3 fs st n).1.time = st.time := by
  unfold handleClientListV2V3; split <;> rfl

lemma handleRoutingTable_time_eq (fs : List Str) (st : Status) (n : Nat) :
    (handleRoutingTable fs st n).1.time = st.time := by
  unfold handleRoutingTable; split <;> rfl

lemma parseLine_title_preserved (l : Str) (st : Status) (n : Nat)
    (v : StatusVersion) (d : Char) (hv : v ≠ Version1) (h : ¬IsTitleLine d l) :
    (parseLine (trimSpace l) st n v d).1.title = st.title := by
  have hlen0 : ¬(splitOn d (trimSpace l)).length = 0 := by
    simpa [List.length_eq_zero] using splitOn_ne_nil d (trimSpace l)
  simp only [parseLine]
  rw [if_neg hlen0, if_neg hv]
  by_cases h1 : (splitOn d (trimSpace l)).getD 0 [] = str "TITLE"
  · rw [if_pos h1]
    have hlen : (splitOn d (trimSpace l)).length < 2 := by
      by_contra hge
      exact h ⟨h1, Nat.le_of_not_lt hge⟩
    unfold handleTitle
    rw [if_pos hlen]
  · rw [if_neg h1]
    by_cases h2 : (splitOn d (trimSpace l)).getD 0 [] = str "TIME"
    · rw [if_pos h2]; exact handleTime_title_eq _ _ _
    · rw [if_neg h2]
      by_cases h3 : (splitOn d (trimSpace l)).getD 0 [] = str "HEADER"
      · rw [if_pos h3]
      · rw [if_neg h3]
        by_cases h4 : (splitOn d (trimSpace l)).getD 0 [] = str "CLIENT_LIST"
        · rw [if_pos h4]; exact handleClientListV2V3_title_eq _ _ _
        · rw [if_neg h4]
          by_cases h5 : (splitOn d (trimSpace l)).getD 0 [] = str "ROUTING_TABLE"
          · rw [if_pos h5]; exact handleRoutingTable_title_eq _ _ _
          · rw [if_neg h5]

lemma parseLine_time_preserved (l : Str) (st : Status) (n : Nat)
    (v : StatusVersion) (d : Char) (hv : v ≠ Version1) (h : ¬IsTimeLine d l) :
    (parseLine (trimSpace l) st n v d).1.time = st.time := by
  have hlen0 : ¬(splitOn d (trimSpace l)).length = 0 := by
    simpa [List.length_eq_zero] using splitOn_ne_nil d (trimSpace l)
  simp only [parseLine]
  rw [if_neg hlen0, if_neg hv]
  by_cases h1 : (splitOn d (trimSpace l)).getD 0 [] = str "TITLE"
  · rw [if_pos h1]; exact handleTitle_time_eq _ _ _
  · rw [if_neg h1]
    by_cases h2 : (splitOn d (trimSpace l)).getD 0 [] = str "TIME"
    · rw [if_pos h2]
      have hlen : (splitOn d (trimSpace l)).length < 2 := by
        by_contra hge
        exact h ⟨h2, Nat.le_of_not_lt hge⟩
      unfold handleTime
      rw [if_pos hlen]
    · rw [if_neg h2]
      by_cases h3 : (splitOn d (trimSpace l)).getD 0 [] = str "HEADER"
      · rw [if_pos h3]
      · rw [if_neg h3]
        by_cases h4 : (splitOn d (trimSpace l)).getD 0 [] = str "CLIENT_LIST"
        · rw [if_pos h4]; exact handleClientListV2V3_time_eq _ _ _
        · rw [if_neg h4]
          by_cases h5 : (splitOn d (trimSpace l)).getD 0 [] = str "ROUTING_TABLE"
          · rw [if_pos h5]; exact handleRoutingTable_time_eq _ _ _
          · rw [if_neg h5]

lemma parseLine_title_set (l : Str) (st : Status) (n : Nat)
    (v : StatusVersion) (d : Char) (hv : v ≠ Version1) (h : IsTitleLine d l) :
    (parseLine (trimSpace l) st n v d).1.title =
      (splitOn d (trimSpace l)).getD 1 [] := by
  obtain ⟨ht, hlen⟩ := h
  have hlen0 : ¬(splitOn d (trimSpace l)).length = 0 := by
    simpa [List.length_eq_zero] using splitOn_ne_nil d (trimSpace l)
  simp only [parseLine]
  rw [if_neg hlen0, if_neg hv, if_pos ht]
  unfold handleTitle
  rw [if_neg (Nat.not_lt.mpr hlen)]

lemma parseLine_time_set (l : Str) (st : Status) (n : Nat)
    (v : StatusVersion) (d : Char) (hv : v ≠ Version1) (h : IsTimeLine d l) :
    (parseLine (trimSpace l) st n v d).1.time =
      (splitOn d (trimSpace l)).drop 1 := by
  obtain ⟨ht, hlen⟩ := h
  have hlen0 : ¬(splitOn d (trimSpace l)).length = 0 := by
    simpa [List.length_eq_zero] using splitOn_ne_nil d (trimSpace l)
  have hne : ¬(splitOn d (trimSpace l)).getD 0 [] = str "TITLE" := by
    rw [ht]; decide
  simp only [parseLine]
  rw [if_neg hlen0, if_neg hv, if_neg hne, if_pos ht]
  unfold handleTime
  rw [if_neg (Nat.not_lt.mpr hlen)]

lemma isTitleLine_nonblank (d : Char) (l : Str) (h : IsTitleLine d l) :
    (trimSpace l).isEmpty = false := by
  by_contra hb
  have he : trimSpace l = [] := by
    cases htr : trimSpace l with
    | nil => rfl
    | cons c t => rw [htr] at hb; simp at hb
  obtain ⟨ht, _⟩ := h
  rw [he, show splitOn d [] = [[]] from rfl] at ht
  exact absurd ht (by decide)

lemma isTimeLine_nonblank (d : Char) (l : Str) (h : IsTimeLine d l) :
    (trimSpace l).isEmpty = false := by
  by_contra hb
  have he : trimSpace l = [] := by
    cases htr : trimSpace l with
    | nil => rfl
    | cons c t => rw [htr] at hb; simp at hb
  obtain ⟨ht, _⟩ := h
  rw [he, show splitOn d [] = [[]] from rfl] at ht
  exact absurd ht (by decide)

lemma scanLines_title_preserved (ls : List Str) (st : Status) (n : Nat)
    (v : StatusVersion) (d : Char) (hv : v ≠ Version1)
    (h : ∀ l ∈ ls, ¬IsTitleLine d l) :
    (scanLines ls st n v d).1.title = st.title := by
  induction ls generalizing st n with
  | nil => rfl
  | cons l ls ih =>
    by_cases hb : (trimSpace l).isEmpty
    · rw [scanLines_cons_blank l ls st n v d hb]
      exact ih st (n + 1) (fun x hx => h x (List.mem_cons_of_mem _ hx))
    · rw [scanLines_cons l ls st n v d (by simpa using hb)]
      rw [ih _ (n + 1) (fun x hx => h x (List.mem_cons_of_mem _ hx))]
      exact parseLine_title_preserved l st n v d hv (h l (List.mem_cons_self _ _))

lemma scanLines_time_preserved (ls : List Str) (st : Status) (n : Nat)
    (v : StatusVersion) (d : Char) (hv : v ≠ Version1)
    (h : ∀ l ∈ ls, ¬IsTimeLine d l) :
    (scanLines ls st n v d).1.time = st.time := by
  induction ls generalizing st n with
  | nil => rfl
  | cons l ls ih =>
    by_cases hb : (trimSpace l).isEmpty
    · rw [scanLines_cons_blank l ls st n v d hb]
      exact ih st (n + 1) (fun x hx => h x (List.mem_cons_of_mem _ hx))
    · rw [scanLines_cons l ls st n v d (by simpa using hb)]
      rw [ih _ (n + 1) (fun x hx => h x (List.mem_cons_of_mem _ hx))]
      exact parseLine_time_preserved l st n v d hv (h l (List.mem_cons_self _ _))

lemma scanLines_append_fst (xs ys : List Str) (st : Status) (n : Nat)
    (v : StatusVersion) (d : Char) :
    (scanLines (xs ++ ys) st n v d).1 =
      (scanLines ys (scanLines xs st n v d).1 (n + xs.length) v d).1 := by
  induction xs generalizing st n with
  | nil => simp [scanLines_nil]
  | cons l xs ih =>
    by_cases hb : (trimSpace l).isEmpty
    · rw [List.cons_append, scanLines_cons_blank l (xs ++ ys) st n v d hb,
        scanLines_cons_blank l xs st n v d hb, ih st (n + 1),
        show n + (l :: xs).length = n + 1 + xs.length by simp; omega]
    · rw [List.cons_append, scanLines_cons l (xs ++ ys) st n v d (by simpa using hb),
        scanLines_cons l xs st n v d (by simpa using hb)]
      dsimp only
      rw [ih _ (n + 1),
        show n + (l :: xs).length = n + 1 + xs.length by simp; omega]

/-- C10: repeated TITLE and TIME lines overwrite rather than accumulate:
whenever a file decomposes as some prefix, a valid TITLE (resp. TIME)
line, and a suffix containing no further valid TITLE (resp. TIME) line,
the parsed model's title is field 1 of that line (resp. its time fields
are that line's post-tag fields). -/
theorem last_title_time_wins :
    (∀ (v : StatusVersion) (lines1 lines2 : List Str) (tl : Str) (st : Status)
      (errs : List GoError), v ≠ Version1 → IsTitleLine (delimiterOf v) tl →
      (∀ l ∈ lines2, ¬IsTitleLine (delimiterOf v) l) →
      ParseFile (some (lines1 ++ tl :: lines2)) v = (some st, errs) →
      st.title = (splitOn (delimiterOf v) (trimSpace tl)).getD 1 []) ∧
    (∀ (v : StatusVersion) (lines1 lines2 : List Str) (tm : Str) (st : Status)
      (errs : List GoError), v ≠ Version1 → IsTimeLine (delimiterOf v) tm →
      (∀ l ∈ lines2, ¬IsTimeLine (delimiterOf v) l) →
      ParseFile (some (lines1 ++ tm :: lines2)) v = (some st, errs) →
      st.time = (splitOn (delimiterOf v) (trimSpace tm)).drop 1) := by
  constructor
  · intro v lines1 lines2 tl st errs hv htl hno h
    have hst : st = (scanLines (lines1 ++ tl :: lines2) initialStatus 1 v
        (delimiterOf v)).1 := by
      have hfst := congrArg Prod.fst h
      simp only [ParseFile] at hfst
      exact (Option.some.inj hfst).symm
    subst hst
    rw [scanLines_append_fst,
      scanLines_cons _ _ _ _ _ _ (isTitleLine_nonblank (delimiterOf v) tl htl)]
    dsimp only
    rw [scanLines_title_preserved lines2 _ _ v (delimiterOf v) hv hno]
    exact parseLine_title_set tl _ _ v (delimiterOf v) hv htl
  · intro v lines1 lines2 tm st errs hv htm hno h
    have hst : st = (scanLines (lines1 ++ tm :: lines2) initialStatus 1 v
        (delimiterOf v)).1 := by
      have hfst := congrArg Prod.fst h
      simp only [ParseFile] at hfst
      exact (Option.some.inj hfst).symm
    subst hst
    rw [scanLines_append_fst,
      scanLines_cons _ _ _ _ _ _ (isTimeLine_nonblank (delimiterOf v) tm htm)]
    dsimp only
    rw [scanLines_time_preserved lines2 _ _ v (delimiterOf v) hv hno]
    exact parseLine_time_set tm _ _ v (delimiterOf v) hv htm

set_option maxRecDepth 40000 in
/-- Witness for C10: in the concrete version-2 file
`TITLE,first / TITLE,second / TIME,T,5` the model's title comes from the
last TITLE line. -/
theorem last_title_time_wins_witness :
    ({ server := none, title := str "second", time := [str "T", str "5"],
       clientList := [], routingTable := [] } : Status).title =
      (splitOn (delimiterOf Version2) (trimSpace (str "TITLE,second"))).getD 1 [] :=
  last_title_time_wins.1 Version2 [str "TITLE,first"] [str "TIME,T,5"]
    (str "TITLE,second")
    { server := none, title := str "second", time := [str "T", str "5"],
      clientList := [], routingTable := [] } []
    (by decide) (by decide) (by decide) (by decide)

lemma lineFieldsOk_spec (fs : List Str) (h : lineFieldsOk fs = true) :
    fs ≠ [] ∧ (∀ f ∈ fs, ',' ∉ f ∧ '\t' ∉ f) ∧
    headOk (fs.headD []) = true ∧ headOk (fs.getLastD []).reverse = true := by
  simp only [lineFieldsOk, Bool.and_eq_true, Bool.not_eq_true', List.all_eq_true,
    decide_eq_true_eq] at h
  obtain ⟨⟨⟨hne, hall⟩, hh⟩, hl⟩ := h
  refine ⟨?_, hall, hh, hl⟩
  intro hfs
  rw [hfs] at hne
  simp at hne

lemma trimSpace_joinOn (d : Char) (fs : List Str) (h : lineFieldsOk fs = true) :
    trimSpace (joinOn d fs) = joinOn d fs := by
  obtain ⟨-, -, hh, hl⟩ := lineFieldsOk_spec fs h
  exact trimSpace_eq_self _ (headOk_joinOn d fs hh) (headOk_joinOn_reverse d fs hl)

lemma joinOn_isEmpty_false (d : Char) (fs : List Str) (h : lineFieldsOk fs = true) :
    (joinOn d fs).isEmpty = false := by
  obtain ⟨-, -, hh, -⟩ := lineFieldsOk_spec fs h
  have := headOk_ne_nil _ (headOk_joinOn d fs hh)
  cases hj : joinOn d fs with
  | nil => exact absurd hj this
  | cons c t => rfl

lemma parseLine_congr (l1 l2 : Str) (st : Status) (n : Nat)
    (v1 v2 : StatusVersion) (d1 d2 : Char)
    (h : splitOn d1 l1 = splitOn d2 l2) (hv1 : v1 ≠ Version1) (hv2 : v2 ≠ Version1) :
    parseLine l1 st n v1 d1 = parseLine l2 st n v2 d2 := by
  simp only [parseLine, h, if_neg hv1, if_neg hv2]

lemma scanLines_v2_v3 (fss : List (List Str)) (st : Status) (n : Nat)
    (h : ∀ fs ∈ fss, lineFieldsOk fs = true) :
    scanLines (fss.map (joinOn ',')) st n Version2 ',' =
      scanLines (fss.map (joinOn '\t')) st n Version3 '\t' := by
  induction fss generalizing st n with
  | nil => rfl
  | cons fs fss ih =>
    have hok := h fs (List.mem_cons_self _ _)
    have hrest := fun x hx => h x (List.mem_cons_of_mem _ hx)
    have hb2 : (trimSpace (joinOn ',' fs)).isEmpty = false := by
      rw [trimSpace_joinOn ',' fs hok]; exact joinOn_isEmpty_false ',' fs hok
    have hb3 : (trimSpace (joinOn '\t' fs)).isEmpty = false := by
      rw [trimSpace_joinOn '\t' fs hok]; exact joinOn_isEmpty_false '\t' fs hok
    obtain ⟨hne, hnd, -, -⟩ := lineFieldsOk_spec fs hok
    have hsplit : splitOn ',' (trimSpace (joinOn ',' fs)) =
        splitOn '\t' (trimSpace (joinOn '\t' fs)) := by
      rw [trimSpace_joinOn ',' fs hok, trimSpace_joinOn '\t' fs hok,
        splitOn_joinOn ',' fs hne (fun f hf => (hnd f hf).1),
        splitOn_joinOn '\t' fs hne (fun f hf => (hnd f hf).2)]
    have hpl : parseLine (trimSpace (joinOn ',' fs)) st n Version2 ',' =
        parseLine (trimSpace (joinOn '\t' fs)) st n Version3 '\t' :=
      parseLine_congr _ _ st n Version2 Version3 ',' '\t' hsplit (by decide) (by decide)
    rw [List.map_cons, List.map_cons, scanLines_cons _ _ st n Version2 ',' hb2,
      scanLines_cons _ _ st n Version3 '\t' hb3, hpl, ih _ (n + 1) hrest]

/-- C9 (amended): version-2 and version-3 parsing agree line for line:
for every sequence of field lists in which no field contains a comma or
a tab and each line's first and last fields are non-empty and do not
start (resp. end) with white space, parsing the comma-joined lines as
version 2 returns exactly the model and error list of parsing the
tab-joined lines as version 3. -/
theorem v2_v3_delimiter_equivalence (fss : List (List Str))
    (h : ∀ fs ∈ fss, lineFieldsOk fs = true) :
    ParseFile (some (fss.map (joinOn ','))) Version2 =
      ParseFile (some (fss.map (joinOn '\t'))) Version3 := by
  simp only [ParseFile]
  rw [show delimiterOf Version2 = ',' from rfl, show delimiterOf Version3 = '\t' from rfl,
    scanLines_v2_v3 fss initialStatus 1 h]

set_option maxRecDepth 40000 in
/-- Witness for C9 (amended) on a concrete two-line file: a TITLE line
and a full CLIENT_LIST record (with an empty middle field). -/
theorem v2_v3_delimiter_equivalence_witness :
    (∀ fs ∈ [[str "TITLE", str "t"],
      [str "CLIENT_LIST", str "u", str "1.2.3.4:1", str "v", str "",
       str "1", str "2", str "T", str "3", str "usr", str "4", str "5"]],
      lineFieldsOk fs = true) ∧
    ParseFile (some ([[str "TITLE", str "t"],
      [str "CLIENT_LIST", str "u", str "1.2.3.4:1", str "v", str "",
       str "1", str "2", str "T", str "3", str "usr", str "4", str "5"]].map
        (joinOn ','))) Version2 =
      ParseFile (some ([[str "TITLE", str "t"],
        [str "CLIENT_LIST", str "u", str "1.2.3.4:1", str "v", str "",
         str "1", str "2", str "T", str "3", str "usr", str "4", str "5"]].map
          (joinOn '\t'))) Version3 :=
  ⟨by decide, v2_v3_delimiter_equivalence _ (by decide)⟩

set_option maxRecDepth 40000 in
/-- Counterexample to C9 as stated: the 12-field CLIENT_LIST record
whose last field is empty contains no comma and no tab in any field,
yet its comma-joined line parses under version 2 to one client and no
error, while its tab-joined line (whose trailing tab is trimmed away)
parses under version 3 to no client and one error. -/
theorem v2_v3_divergence_on_trailing_empty_field :
    (∀ f ∈ c9BadFields, ',' ∉ f ∧ '\t' ∉ f) ∧
    ParseFile (some [joinOn ',' c9BadFields]) Version2 ≠
      ParseFile (some [joinOn '\t' c9BadFields]) Version3 := by
  decide
